import Mathlib

/-!
Shallow embedding of the multi-cloud cost dashboard backend
(`backend/app/services/providers/*` and `backend/app/api/provider_routes.py`).

Python dicts holding configuration are modelled as association lists of
string keys and values; JSON-like records returned by adapter operations are
modelled as structures whose optional fields stand for keys that may be
absent from the dict (`none` = key missing, `.get(k, d)` = `Option.getD`).
Machine floats are modelled as rationals; Python's `round(x, n)` (round half
to even) is modelled exactly on rationals.  Network effects (boto3 / Azure
SDK calls, `random`, `datetime.now()`) are passed in as explicit parameters:
an `Except String _` models a Python call that either returns data or raises
an exception carrying `str(e)`.
-/

namespace CloudDash

/-- Python's `round(x)` on a rational: round half to even (banker's rounding). -/
def pyRoundInt (x : ℚ) : ℤ :=
  let f : ℤ := ⌊x⌋
  let r : ℚ := x - f
  if r < 1/2 then f
  else if 1/2 < r then f + 1
  else if f % 2 = 0 then f else f + 1

/-- Python's `round(x, digits)` on a rational. -/
def pyRound (x : ℚ) (digits : ℕ) : ℚ :=
  (pyRoundInt (x * 10 ^ digits) : ℚ) / 10 ^ digits

/-- A provider configuration: a Python `dict` of string keys and values,
modelled as an association list with unique keys kept in insertion order. -/
def Config := List (String × String)

instance : DecidableEq Config := by
  unfold Config
  infer_instance

/-- Embeds `config.get(k)` / `k in config`. -/
def Config.get? (c : Config) (k : String) : Option String :=
  (c.find? (fun p => p.1 == k)).map (fun p => p.2)

/-- Embeds `config.get(k, d)`. -/
def Config.getD (c : Config) (k d : String) : String :=
  (c.get? k).getD d

/-- Embeds `config[k] = v`: replace the value at `k` if present, else append the key. -/
def Config.set : Config → String → String → Config
  | [], k, v => [(k, v)]
  | (k', v') :: rest, k, v =>
      if k' == k then (k, v) :: rest
      else (k', v') :: Config.set rest k v

/-- Python's `str.lower()` on the ASCII identifiers the factory sees:
lower-case every character. -/
def pyLower (s : String) : String := String.mk (s.data.map Char.toLower)

/-- The concrete adapter classes reachable from the factory registry. -/
inductive AdapterKind where
  | gcp
  | aws
  | azure
  | mock
deriving DecidableEq, Repr

/-- A constructed provider adapter.  `provider_name` is the Mock adapter's
display name attribute (`self.provider_name`); real adapters do not set it. -/
structure Adapter where
  kind : AdapterKind
  config : Config
  provider_name : Option String := none
deriving DecidableEq

/-- Embeds `MockProvider.__init__`: stores the config and sets
`self.provider_name = config.get('name', 'mock')`; `_validate_config` is a
no-op, so construction never fails. -/
def MockProvider.init (config : Config) : Except String Adapter :=
  .ok { kind := .mock, config := config,
        provider_name := some (config.getD "name" "mock") }

/-- Embeds `AWSProvider._validate_config` run by `BaseCloudProvider.__init__`:
raises if boto3 is not importable (`awsAvailable` models `AWS_AVAILABLE`)
or if `'account_id' not in self.config`. -/
def AWSProvider.init (awsAvailable : Bool) (config : Config) :
    Except String Adapter :=
  if !awsAvailable then
    .error "AWS SDK not installed. Run: pip install boto3"
  else if (config.get? "account_id").isNone then
    .error "AWS account_id required"
  else
    .ok { kind := .aws, config := config }

/-- Embeds `AzureProvider._validate_config`: raises if the Azure SDK is not
importable or if `'subscription_id' not in self.config`. -/
def AzureProvider.init (azureAvailable : Bool) (config : Config) :
    Except String Adapter :=
  if !azureAvailable then
    .error
      "Azure SDK not installed. Run: pip install azure-identity azure-mgmt-costmanagement"
  else if (config.get? "subscription_id").isNone then
    .error "Azure subscription_id required"
  else
    .ok { kind := .azure, config := config }

/-- Modelled from the spec: `gcp_provider.py` is imported by
`cloud_factory.py` but its source is not in the repository snapshot; per the
spec (§4.1) a real adapter validates its required configuration keys at
construction and fails fast when one is missing.  Its internals are
irrelevant to the factory-level claims, so it is kept abstract up to a
SDK-availability flag and one required key. -/
def GCPProvider.init (gcpAvailable : Bool) (config : Config) :
    Except String Adapter :=
  if !gcpAvailable then
    .error "GCP SDK not installed"
  else if (config.get? "project_id").isNone then
    .error "GCP project_id required"
  else
    .ok { kind := .gcp, config := config }

/-- The factory's class-level `_providers` registry, as a list of
(identifier, constructor) pairs in declaration order. -/
def defaultProviders (gcpAvailable awsAvailable azureAvailable : Bool) :
    List (String × (Config → Except String Adapter)) :=
  [ ("gcp", GCPProvider.init gcpAvailable),
    ("aws", AWSProvider.init awsAvailable),
    ("azure", AzureProvider.init azureAvailable),
    ("mock", MockProvider.init),
    ("mock_gcp", MockProvider.init),
    ("mock_aws", MockProvider.init),
    ("mock_azure", MockProvider.init) ]

/-- Embeds `CloudProviderFactory.register_provider(name, cls)`:
`cls._providers[name.lower()] = cls`. -/
def CloudProviderFactory.register_provider
    (registry : List (String × (Config → Except String Adapter)))
    (name : String) (ctor : Config → Except String Adapter) :
    List (String × (Config → Except String Adapter)) :=
  let k := pyLower name
  if registry.any (fun p => p.1 == k) then
    registry.map (fun p => if p.1 == k then (k, ctor) else p)
  else
    registry ++ [(k, ctor)]

/-- Embeds `CloudProviderFactory.create(provider, config)`.

`mockMode` models `os.getenv('USE_MOCK_DATA', 'false').lower() == 'true'`,
read at call time.  Because `config['name'] = provider` mutates the
caller-supplied dict in place, the model returns the final state of that
dict alongside the result: the first component is the constructed adapter
(or the raised exception's message), the second is the caller's dict after
the call. -/
def CloudProviderFactory.create
    (registry : List (String × (Config → Except String Adapter)))
    (mockMode : Bool) (provider : String) (config : Config) :
    Except String Adapter × Config :=
  let providerLower := pyLower provider
  if mockMode then
    let config' := config.set "name" provider
    (MockProvider.init config', config')
  else
    match registry.find? (fun p => p.1 == providerLower) with
    | some (_, ctor) => (ctor config, config)
    | none => (.error ("Unsupported provider: " ++ provider), config)

/-! ### Adapter operations -/

/-- A month-to-date cost line item: a dict that, on the success path, holds
`service`/`cost` (and sometimes `project`), and on an adapter-swallowed
failure is a bare `{'error': str(e)}` marker with no `cost` key. -/
structure CostItem where
  service : Option String := none
  project : Option String := none
  cost : Option ℚ := none
  error : Option String := none
deriving DecidableEq, Repr

/-- Embeds `BaseCloudProvider.get_mtd_total`: `try: costs = self.get_mtd_costs();
return sum(item.get('cost', 0) for item in costs) except: return 0.0`.
The outcome of `self.get_mtd_costs()` (a network-dependent call) is passed
in: `.error` models the call raising, `.ok` its returned list. -/
def BaseCloudProvider.get_mtd_total
    (mtdCosts : Except String (List CostItem)) : ℚ :=
  match mtdCosts with
  | .ok costs => (costs.map (fun item => item.cost.getD 0)).sum
  | .error _ => 0

/-- The dict returned by a `get_timeseries` implementation.  `ts` is the
list under the `'ts'` key when present; `values` is the list under the
value key (`'cpu_percent'`, `'memory_percent'` or `'values'`, recorded in
`valuesKey`) when present; `message`/`error` are the corresponding optional
string keys. -/
structure TSResult where
  ts : Option (List String) := none
  values : Option (List ℚ) := none
  valuesKey : String := ""
  message : Option String := none
  error : Option String := none
deriving DecidableEq, Repr

/-- The spec's timeseries invariant: the result carries a timestamp
sequence and a value sequence of equal length. -/
def TSResult.hasEqualSeqs (r : TSResult) : Prop :=
  ∃ t v, r.ts = some t ∧ r.values = some v ∧ t.length = v.length

/-- Embeds `MockProvider.get_timeseries(metric_type, minutes)`.
`minutes` is a Python int, so it may be negative: `data_points =
min(minutes, 60)` and `range(data_points)` is empty when it is ≤ 0.
`isoTs i` models `(now - timedelta(minutes=data_points - i)).isoformat()`
and `jitter i` the `random.uniform(-20, 20)` draw of iteration `i`. -/
def MockProvider.get_timeseries (isoTs : ℕ → String) (jitter : ℕ → ℚ)
    (metricType : String) (minutes : ℤ) : TSResult :=
  let dataPoints : ℕ := (min minutes 60).toNat
  let baseValue : ℚ := if metricType == "cpu" then 50 else 100
  let ts := (List.range dataPoints).map isoTs
  let values := (List.range dataPoints).map
    (fun i => pyRound (baseValue + jitter i) 1)
  if metricType == "cpu" then
    { ts := some ts, values := some values, valuesKey := "cpu_percent" }
  else if metricType == "memory" then
    { ts := some ts, values := some values, valuesKey := "memory_percent" }
  else
    { ts := some ts, values := some values, valuesKey := "values" }

/-- Embeds `AzureProvider.get_timeseries(metric_type, minutes)`: always returns
empty arrays plus a not-implemented message; the key layout depends on
`metric_type`. -/
def AzureProvider.get_timeseries (metricType : String) (_minutes : ℤ) :
    TSResult :=
  if metricType == "cpu" then
    { ts := some [], values := some [], valuesKey := "cpu_percent",
      message := some "Azure timeseries not yet fully implemented" }
  else
    { ts := some [], values := some [], valuesKey := "values",
      message := some "Azure timeseries not yet fully implemented" }

/-- Embeds `AWSProvider._get_cpu_timeseries(minutes)`: the CloudWatch
`get_metric_statistics` call is passed in as `cloudwatch` — `.ok` carries
the datapoints already sorted by timestamp, each an (ISO timestamp string,
average) pair; `.error` models the call raising, in which case the method
returns empty arrays plus an `error` key. -/
def AWSProvider.getCpuTimeseries
    (cloudwatch : Except String (List (String × ℚ))) : TSResult :=
  match cloudwatch with
  | .ok datapoints =>
      { ts := some (datapoints.map (fun p => p.1)),
        values := some (datapoints.map (fun p => pyRound p.2 1)),
        valuesKey := "cpu_percent" }
  | .error e =>
      { ts := some [], values := some [], valuesKey := "cpu_percent",
        error := some e }

/-- Embeds `AWSProvider.get_timeseries(metric_type, minutes)`: dispatches to the
CPU helper for `'cpu'` and otherwise returns a bare message dict with no
`ts`/`values` keys at all. -/
def AWSProvider.get_timeseries
    (cloudwatch : Except String (List (String × ℚ)))
    (metricType : String) (_minutes : ℤ) : TSResult :=
  if metricType == "cpu" then
    AWSProvider.getCpuTimeseries cloudwatch
  else
    { message := some "AWS timeseries not yet fully implemented" }

/-! ### Base-class extension operation defaults, inherited by `MockProvider`

`mock_provider.py` defines only `_validate_config`, `get_mtd_costs`,
`get_daily_costs`, `get_live_metrics` and `get_timeseries`; the six
extension operations resolve to the `BaseCloudProvider` defaults. -/

/-- One entry of a forecast's `forecast_data` list. -/
structure ForecastPoint where
  date : Option String := none
  cost : Option ℚ := none
deriving DecidableEq, Repr

/-- The dict returned by a `get_forecast` implementation, or stored under a
provider's key by the forecast aggregation.  Optional fields model keys
that may be absent (`.get(k, 0)`). -/
structure Forecast where
  forecast_data : List ForecastPoint := []
  current_mtd : Option ℚ := none
  projected_eom : Option ℚ := none
  daily_average : Option ℚ := none
  trend : Option String := none
  confidence : Option ℚ := none
deriving DecidableEq, Repr

/-- A cost anomaly record, with only the fields the aggregation layer
reads; `provider` is injected at aggregation time. -/
structure Anomaly where
  id : Option String := none
  service : Option String := none
  deviation_percent : Option ℚ := none
  severity : Option String := none
  provider : Option String := none
deriving DecidableEq, Repr

/-- A cost optimization recommendation record. -/
structure Recommendation where
  id : Option String := none
  title : Option String := none
  potential_savings_monthly : Option ℚ := none
  provider : Option String := none
deriving DecidableEq, Repr

/-- A cost alert record.  `acknowledged := none` models a missing key,
which Python's `not a.get('acknowledged')` treats like `False`. -/
structure Alert where
  id : Option String := none
  title : Option String := none
  severity : Option String := none
  acknowledged : Option Bool := none
  created_at : Option String := none
  provider : Option String := none
deriving DecidableEq, Repr

/-- A budget record. -/
structure Budget where
  id : Option String := none
  name : Option String := none
  type : Option String := none
  budget_amount : Option ℚ := none
  spent_amount : Option ℚ := none
  status : Option String := none
  provider : Option String := none
deriving DecidableEq, Repr

/-- Embeds `BaseCloudProvider.get_anomalies` default: `return []`. -/
def BaseCloudProvider.get_anomalies : List Anomaly := []

/-- Embeds `BaseCloudProvider.get_recommendations` default: `return []`. -/
def BaseCloudProvider.get_recommendations : List Recommendation := []

/-- Embeds `BaseCloudProvider.get_alerts` default: `return []`. -/
def BaseCloudProvider.get_alerts : List Alert := []

/-- Embeds `BaseCloudProvider.get_budgets` default: `return []`. -/
def BaseCloudProvider.get_budgets : List Budget := []

/-- Embeds `BaseCloudProvider.get_forecast(days)` default: empty forecast data,
`current_mtd` from `get_mtd_total()`, zeroed projections. -/
def BaseCloudProvider.get_forecast
    (mtdCosts : Except String (List CostItem)) (_days : ℤ) : Forecast :=
  { forecast_data := [],
    current_mtd := some (BaseCloudProvider.get_mtd_total mtdCosts),
    projected_eom := some 0,
    daily_average := some 0,
    trend := some "stable",
    confidence := some 0 }

/-- Embeds `MockProvider.get_anomalies`: not overridden, inherited default. -/
def MockProvider.get_anomalies : List Anomaly :=
  BaseCloudProvider.get_anomalies

/-- Embeds `MockProvider.get_recommendations`: not overridden, inherited default. -/
def MockProvider.get_recommendations : List Recommendation :=
  BaseCloudProvider.get_recommendations

/-- Embeds `MockProvider.get_alerts`: not overridden, inherited default. -/
def MockProvider.get_alerts : List Alert :=
  BaseCloudProvider.get_alerts

/-- Embeds `MockProvider.get_budgets`: not overridden, inherited default. -/
def MockProvider.get_budgets : List Budget :=
  BaseCloudProvider.get_budgets

/-- Embeds `MockProvider.get_forecast`: not overridden, inherited default
(applied to the mock's own `get_mtd_costs` outcome). -/
def MockProvider.get_forecast
    (mtdCosts : Except String (List CostItem)) (days : ℤ) : Forecast :=
  BaseCloudProvider.get_forecast mtdCosts days

/-! ### Aggregation layer (`provider_routes.py`, the `/all` endpoints)

Each endpoint iterates `auth_manager.get_active_providers()` and, per
provider, runs `CloudProviderFactory.create(...)` followed by the relevant
adapter operation inside a `try`.  The whole per-provider step is passed in
as one `Except String _` per provider: `.error e` models either the factory
or the operation raising an exception with `str(e) = e`, `.ok` its result.
The loops are embedded as left folds mirroring the Python statement order. -/

/-- Per-provider fetch outcomes, in active-provider iteration order. -/
abbrev Fetches (α : Type) := List (String × Except String α)

/-- The `for provider_info in providers: try: ... except: continue` loop
shared by the four list-returning `/all` endpoints: fold the per-provider
step `f` over the successful fetches, leaving the accumulator untouched on
a raised exception (`continue`). -/
def skipFold {α β : Type} (f : β → String → α → β) (rs : Fetches α)
    (acc : β) : β :=
  rs.foldl
    (fun acc pr =>
      match pr.2 with
      | .ok x => f acc pr.1 x
      | .error _ => acc)
    acc

/-- Embeds `GET /anomalies/all` (`all_anomalies`): tag, concatenate, skip failing
providers silently, then `sort(key=lambda x: x.get('deviation_percent', 0),
reverse=True)`. -/
def all_anomalies (rs : Fetches (List Anomaly)) : List Anomaly :=
  let collected := skipFold
    (fun acc p anomalies =>
      acc ++ anomalies.map (fun a => { a with provider := some p }))
    rs []
  collected.mergeSort
    (fun a b => decide (b.deviation_percent.getD 0 ≤ a.deviation_percent.getD 0))

/-- The response body of `GET /recommendations/all`. -/
structure RecsResult where
  recommendations : List Recommendation
  total_potential_savings_monthly : ℚ
  total_potential_savings_yearly : ℚ
  recommendation_count : ℕ
deriving DecidableEq, Repr

/-- Embeds `GET /recommendations/all` (`all_recommendations`): tag each item and
accumulate `rec.get('potential_savings_monthly', 0)` into a running total,
skip failing providers, sort descending by that key, and emit the rounded
totals and the count. -/
def all_recommendations (rs : Fetches (List Recommendation)) : RecsResult :=
  let st := skipFold
    (fun (acc : List Recommendation × ℚ) p recs =>
      (acc.1 ++ recs.map (fun r => { r with provider := some p }),
       acc.2 + (recs.map (fun r => r.potential_savings_monthly.getD 0)).sum))
    rs ([], 0)
  let sorted := st.1.mergeSort
    (fun a b => decide (b.potential_savings_monthly.getD 0 ≤
                        a.potential_savings_monthly.getD 0))
  { recommendations := sorted,
    total_potential_savings_monthly := pyRound st.2 2,
    total_potential_savings_yearly := pyRound (st.2 * 12) 2,
    recommendation_count := sorted.length }

/-- The `severity_counts` dict of `GET /alerts/all`. -/
structure SeverityCounts where
  critical : ℕ
  high : ℕ
  warning : ℕ
  medium : ℕ
  low : ℕ
deriving DecidableEq, Repr

/-- The response body of `GET /alerts/all`. -/
structure AlertsResult where
  alerts : List Alert
  total_count : ℕ
  unacknowledged_count : ℕ
  severity_counts : SeverityCounts
deriving DecidableEq, Repr

/-- Embeds `GET /alerts/all` (`all_alerts`): tag, concatenate, skip failing
providers, sort descending by `created_at` (missing key → `''`), then count
by severity bucket and unacknowledged status. -/
def all_alerts (rs : Fetches (List Alert)) : AlertsResult :=
  let collected := skipFold
    (fun acc p alerts =>
      acc ++ alerts.map (fun a => { a with provider := some p }))
    rs []
  let sorted := collected.mergeSort
    (fun a b => decide (b.created_at.getD "" ≤ a.created_at.getD ""))
  { alerts := sorted,
    total_count := sorted.length,
    unacknowledged_count := (sorted.filter (fun a => !(a.acknowledged.getD false))).length,
    severity_counts :=
      { critical := (sorted.filter (fun a => a.severity == some "critical")).length,
        high := (sorted.filter (fun a => a.severity == some "high")).length,
        warning := (sorted.filter (fun a => a.severity == some "warning")).length,
        medium := (sorted.filter (fun a => a.severity == some "medium")).length,
        low := (sorted.filter (fun a => a.severity == some "low")).length } }

/-- The response body of `GET /budgets/all`. -/
structure BudgetsResult where
  budgets : List Budget
  total_budget : ℚ
  total_spent : ℚ
  total_remaining : ℚ
  overall_utilization : ℚ
  at_risk_count : ℕ
deriving DecidableEq, Repr

/-- One provider's inner loop of `all_budgets`: tag every budget with the
provider and add `budget_amount`/`spent_amount` (missing key → 0) to the
running totals only for items with `type == 'overall'`. -/
def budgetsStep (p : String) (budgets : List Budget)
    (acc : List Budget × ℚ × ℚ) : List Budget × ℚ × ℚ :=
  let tagged := budgets.map (fun b => { b with provider := some p })
  let tb := acc.2.1 + ((budgets.filter (fun b => b.type == some "overall")).map
    (fun b => b.budget_amount.getD 0)).sum
  let ts := acc.2.2 + ((budgets.filter (fun b => b.type == some "overall")).map
    (fun b => b.spent_amount.getD 0)).sum
  (acc.1 ++ tagged, tb, ts)

/-- Embeds `GET /budgets/all` (`all_budgets`): collect and tag budgets, skip
failing providers, accumulate overall-type totals, and emit rounded
totals, remaining, utilization (0 when `total_budget ≤ 0`, guarding the
division) and the at-risk count over all collected budgets. -/
def all_budgets (rs : Fetches (List Budget)) : BudgetsResult :=
  let st := skipFold (fun acc p budgets => budgetsStep p budgets acc)
    rs ([], 0, 0)
  { budgets := st.1,
    total_budget := pyRound st.2.1 2,
    total_spent := pyRound st.2.2 2,
    total_remaining := pyRound (st.2.1 - st.2.2) 2,
    overall_utilization :=
      if 0 < st.2.1 then pyRound (st.2.2 / st.2.1 * 100) 1 else 0,
    at_risk_count := (st.1.filter (fun b => b.status == some "at_risk")).length }

/-- One entry of the `GET /costs/summary` response list. -/
structure SummaryEntry where
  provider : String
  mtd_cost : Option ℚ := none
  error : Option String := none
  status : String
deriving DecidableEq, Repr

/-- Embeds `GET /costs/summary` (`unified_costs_summary`): one entry per active
provider — `{provider, mtd_cost, status: 'active'}` on success,
`{provider, error, status: 'error'}` when that provider's step raises. -/
def unified_costs_summary (rs : Fetches ℚ) : List SummaryEntry :=
  rs.map (fun pr =>
    match pr.2 with
    | .ok mtd => { provider := pr.1, mtd_cost := some mtd, status := "active" }
    | .error e => { provider := pr.1, error := some e, status := "error" })

instance {ε α : Type} [DecidableEq ε] [DecidableEq α] :
    DecidableEq (Except ε α) := fun x y =>
  match x, y with
  | .ok a, .ok b =>
      if h : a = b then .isTrue (by rw [h]) else .isFalse (by simp [h])
  | .error a, .error b =>
      if h : a = b then .isTrue (by rw [h]) else .isFalse (by simp [h])
  | .ok _, .error _ => .isFalse (by simp)
  | .error _, .ok _ => .isFalse (by simp)

/-- The response body of `GET /forecast/all`.  `providers` models the
`forecasts` dict as an association list in insertion order; an `.error`
entry models `{'error': str(e)}` under that provider's key. -/
structure ForecastAllResult where
  providers : List (String × Except String Forecast)
  total_current_mtd : ℚ
  total_projected_eom : ℚ
deriving DecidableEq, Repr

/-- One iteration of the `for provider_info in providers: try: ... except:`
loop shared by the two keyed `/all` endpoints with running totals
(forecast-all and services-breakdown-all): on success store the provider's
result under its key and add `tot1`/`tot2` of it to the totals; on a raised
exception store `{'error': str(e)}` under the key and leave the totals. -/
def keyedStep {α : Type} (tot1 tot2 : α → ℚ)
    (acc : List (String × Except String α) × ℚ × ℚ)
    (pr : String × Except String α) :
    List (String × Except String α) × ℚ × ℚ :=
  match pr.2 with
  | .ok x => (acc.1 ++ [(pr.1, .ok x)], acc.2.1 + tot1 x, acc.2.2 + tot2 x)
  | .error e => (acc.1 ++ [(pr.1, .error e)], acc.2.1, acc.2.2)

/-- Embeds `GET /forecast/all` (`all_forecasts`): store each provider's forecast
(or error entry) under its key and accumulate `current_mtd` and
`projected_eom` (missing key → 0) over the successful ones. -/
def all_forecasts (rs : Fetches Forecast) : ForecastAllResult :=
  let st := rs.foldl
    (keyedStep (fun f => f.current_mtd.getD 0) (fun f => f.projected_eom.getD 0))
    ([], 0, 0)
  { providers := st.1,
    total_current_mtd := pyRound st.2.1 2,
    total_projected_eom := pyRound st.2.2 2 }

/-- The dict returned by a `get_services_breakdown` implementation, with
only the keys the aggregation reads. -/
structure Breakdown where
  total_cost : Option ℚ := none
  total_services : Option ℚ := none
  category_count : Option ℕ := none
deriving DecidableEq, Repr

/-- The response body of `GET /services/breakdown/all`. -/
structure BreakdownAllResult where
  providers : List (String × Except String Breakdown)
  total_cost : ℚ
  total_services : ℚ
deriving DecidableEq, Repr

/-- Embeds `GET /services/breakdown/all` (`all_services_breakdown`): store each
provider's breakdown (or error entry) under its key and accumulate
`total_cost` (rounded on output) and `total_services` (not rounded). -/
def all_services_breakdown (rs : Fetches Breakdown) : BreakdownAllResult :=
  let st := rs.foldl
    (keyedStep (fun b => b.total_cost.getD 0) (fun b => b.total_services.getD 0))
    ([], 0, 0)
  { providers := st.1,
    total_cost := pyRound st.2.1 2,
    total_services := st.2.2 }

/-! ### Shared helper lemmas -/

theorem Config.get?_set_self (c : Config) (k v : String) :
    (c.set k v).get? k = some v := by
  induction c with
  | nil => simp [Config.set, Config.get?, List.find?]
  | cons h t ih =>
      obtain ⟨k', v'⟩ := h
      by_cases hk : k' = k
      · simp [Config.set, Config.get?, List.find?, hk]
      · simpa [Config.set, Config.get?, List.find?, hk] using ih

theorem Config.get?_set_other (c : Config) (k k' v : String) (h : k' ≠ k) :
    (c.set k v).get? k' = c.get? k' := by
  have hkk : (k == k') = false := beq_eq_false_iff_ne.mpr (fun h' => h h'.symm)
  induction c with
  | nil => simp [Config.set, Config.get?, List.find?, hkk]
  | cons hd t ih =>
      obtain ⟨k₀, v₀⟩ := hd
      by_cases hk : k₀ = k
      · subst hk
        simp [Config.set, Config.get?, List.find?, hkk]
      · have hbk : (k₀ == k) = false := beq_eq_false_iff_ne.mpr hk
        by_cases hk' : k₀ = k'
        · subst hk'
          simp [Config.set, Config.get?, List.find?, hbk]
        · have hb : (k₀ == k') = false := beq_eq_false_iff_ne.mpr hk'
          simpa [Config.set, Config.get?, List.find?, hbk, hb] using ih

theorem sum_map_getD_cost (l : List CostItem) :
    (l.map (fun i => i.cost.getD 0)).sum = (l.filterMap CostItem.cost).sum := by
  induction l with
  | nil => rfl
  | cons h t ih =>
      cases hc : h.cost with
      | none => simp [List.filterMap_cons, hc, ih]
      | some x => simp [List.filterMap_cons, hc, ih]

theorem skipFold_filter_isOk {α β : Type} (f : β → String → α → β)
    (rs : Fetches α) (acc : β) :
    skipFold f rs acc = skipFold f (rs.filter (fun pr => pr.2.isOk)) acc := by
  induction rs generalizing acc with
  | nil => rfl
  | cons h t ih =>
      obtain ⟨p, r⟩ := h
      cases r with
      | ok x => simpa [skipFold, List.filter, Except.isOk, Except.toBool] using ih _
      | error e => simpa [skipFold, List.filter, Except.isOk, Except.toBool] using ih _

theorem skipFold_cons_ok {α β : Type} (f : β → String → α → β) (p : String)
    (x : α) (t : Fetches α) (acc : β) :
    skipFold f ((p, Except.ok x) :: t) acc = skipFold f t (f acc p x) := rfl

theorem skipFold_cons_err {α β : Type} (f : β → String → α → β) (p : String)
    (e : String) (t : Fetches α) (acc : β) :
    skipFold f ((p, Except.error e) :: t) acc = skipFold f t acc := rfl

theorem mock_timeseries_shape (isoTs : ℕ → String) (jitter : ℕ → ℚ)
    (metricType : String) (minutes : ℤ) :
    ∃ t v,
      (MockProvider.get_timeseries isoTs jitter metricType minutes).ts = some t ∧
      (MockProvider.get_timeseries isoTs jitter metricType minutes).values = some v ∧
      t.length = (min minutes 60).toNat ∧
      v.length = (min minutes 60).toNat := by
  unfold MockProvider.get_timeseries
  by_cases h1 : metricType == "cpu"
  · rw [if_pos h1]
    exact ⟨_, _, rfl, rfl, by simp, by simp⟩
  · rw [if_neg h1]
    by_cases h2 : metricType == "memory"
    · rw [if_pos h2]
      exact ⟨_, _, rfl, rfl, by simp, by simp⟩
    · rw [if_neg h2]
      exact ⟨_, _, rfl, rfl, by simp, by simp⟩

/-- The budgets contributed by the successful providers, in iteration
order, untagged. -/
def rawBudgets (rs : Fetches (List Budget)) : List Budget :=
  (rs.map (fun pr =>
    match pr.2 with
    | .ok bs => bs
    | .error _ => [])).flatten

/-- The budgets contributed by the successful providers, each tagged with
its provider. -/
def taggedBudgets (rs : Fetches (List Budget)) : List Budget :=
  (rs.map (fun pr =>
    match pr.2 with
    | .ok bs => bs.map (fun b => { b with provider := some pr.1 })
    | .error _ => [])).flatten

/-- Sum of `budget_amount` (missing → 0) over the `type == 'overall'`
budgets of a list. -/
def overallAmountSum (bs : List Budget) : ℚ :=
  ((bs.filter (fun b => b.type == some "overall")).map
    (fun b => b.budget_amount.getD 0)).sum

/-- Sum of `spent_amount` (missing → 0) over the `type == 'overall'`
budgets of a list. -/
def overallSpentSum (bs : List Budget) : ℚ :=
  ((bs.filter (fun b => b.type == some "overall")).map
    (fun b => b.spent_amount.getD 0)).sum

theorem budgets_fold_spec (rs : Fetches (List Budget))
    (acc : List Budget × ℚ × ℚ) :
    skipFold (fun acc p budgets => budgetsStep p budgets acc) rs acc
      = (acc.1 ++ taggedBudgets rs,
         acc.2.1 + overallAmountSum (rawBudgets rs),
         acc.2.2 + overallSpentSum (rawBudgets rs)) := by
  induction rs generalizing acc with
  | nil =>
      simp [skipFold, rawBudgets, taggedBudgets, overallAmountSum,
        overallSpentSum]
  | cons h t ih =>
      obtain ⟨p, r⟩ := h
      cases r with
      | ok bs =>
          rw [skipFold_cons_ok, ih]
          simp [budgetsStep, rawBudgets, taggedBudgets, overallAmountSum,
            overallSpentSum, List.append_assoc, add_assoc]
      | error e =>
          rw [skipFold_cons_err, ih]
          simp [rawBudgets, taggedBudgets, overallAmountSum, overallSpentSum]

theorem tagged_budgets_countP (rs : Fetches (List Budget))
    (f : Budget → Bool)
    (hf : ∀ b p, f { b with provider := some p } = f b) :
    (taggedBudgets rs).countP f = (rawBudgets rs).countP f := by
  induction rs with
  | nil => rfl
  | cons h t ih =>
      obtain ⟨p, r⟩ := h
      cases r with
      | ok bs =>
          simp only [taggedBudgets, rawBudgets, List.map_cons,
            List.flatten_cons, List.countP_append] at ih ⊢
          rw [List.countP_map]
          have hcomp : (f ∘ fun b => { b with provider := some p }) = f :=
            funext (fun b => hf b p)
          rw [hcomp, ih]
      | error e =>
          simpa [taggedBudgets, rawBudgets] using ih

/-- The recommendations contributed by the successful providers,
untagged. -/
def rawRecs (rs : Fetches (List Recommendation)) : List Recommendation :=
  (rs.map (fun pr =>
    match pr.2 with
    | .ok recs => recs
    | .error _ => [])).flatten

/-- The recommendations contributed by the successful providers, each
tagged with its provider. -/
def taggedRecs (rs : Fetches (List Recommendation)) : List Recommendation :=
  (rs.map (fun pr =>
    match pr.2 with
    | .ok recs => recs.map (fun r => { r with provider := some pr.1 })
    | .error _ => [])).flatten

/-- Embeds `rec.get('potential_savings_monthly', 0)`. -/
def recSavings (r : Recommendation) : ℚ :=
  r.potential_savings_monthly.getD 0

theorem recs_fold_spec (rs : Fetches (List Recommendation))
    (acc : List Recommendation × ℚ) :
    skipFold
        (fun (acc : List Recommendation × ℚ) p recs =>
          (acc.1 ++ recs.map (fun r => { r with provider := some p }),
           acc.2 + (recs.map (fun r => r.potential_savings_monthly.getD 0)).sum))
        rs acc
      = (acc.1 ++ taggedRecs rs, acc.2 + ((rawRecs rs).map recSavings).sum) := by
  induction rs generalizing acc with
  | nil => simp [skipFold, rawRecs, taggedRecs]
  | cons h t ih =>
      obtain ⟨p, r⟩ := h
      cases r with
      | ok recs =>
          rw [skipFold_cons_ok, ih]
          simp [rawRecs, taggedRecs, recSavings, List.append_assoc, add_assoc]
          rfl
      | error e =>
          rw [skipFold_cons_err, ih]
          simp [rawRecs, taggedRecs]

theorem tagged_recs_savings (rs : Fetches (List Recommendation)) :
    ((taggedRecs rs).map recSavings).sum = ((rawRecs rs).map recSavings).sum := by
  induction rs with
  | nil => rfl
  | cons h t ih =>
      obtain ⟨p, r⟩ := h
      cases r with
      | ok recs =>
          simp only [taggedRecs, rawRecs, List.map_cons, List.flatten_cons,
            List.map_append, List.sum_append] at ih ⊢
          rw [List.map_map]
          have hcomp : (recSavings ∘ fun r => { r with provider := some p })
              = recSavings := funext (fun r => rfl)
          rw [hcomp, ih]
      | error e => simpa [taggedRecs, rawRecs] using ih

theorem keyedFold_providers {α : Type} (tot1 tot2 : α → ℚ) (rs : Fetches α) :
    ∀ (acc : List (String × Except String α) × ℚ × ℚ),
      (rs.foldl (keyedStep tot1 tot2) acc).1 = acc.1 ++ rs := by
  induction rs with
  | nil => intro acc; simp
  | cons h t ih =>
      intro acc
      obtain ⟨p, r⟩ := h
      cases r with
      | ok x =>
          rw [List.foldl_cons,
            show keyedStep tot1 tot2 acc (p, Except.ok x)
              = (acc.1 ++ [(p, Except.ok x)], acc.2.1 + tot1 x, acc.2.2 + tot2 x)
              from rfl, ih]
          simp
      | error e =>
          rw [List.foldl_cons,
            show keyedStep tot1 tot2 acc (p, Except.error e)
              = (acc.1 ++ [(p, Except.error e)], acc.2.1, acc.2.2) from rfl, ih]
          simp

/-! ### Claim theorems -/

/-- C3: for every adapter, `get_mtd_total()` returns the sum of the `cost`
fields of the list returned by `get_mtd_costs()` when that call succeeds
(items without a `cost` key contribute `item.get('cost', 0) = 0`), returns
`0` when that call raises, and never propagates an error (the embedding is
a total function into ℚ). -/
theorem mtd_total_correct (costs : List CostItem) (e : String) :
    BaseCloudProvider.get_mtd_total (Except.ok costs)
        = (costs.filterMap CostItem.cost).sum ∧
    BaseCloudProvider.get_mtd_total (Except.error e) = 0 :=
  ⟨sum_map_getD_cost costs, rfl⟩

/-- C4: with the process-wide mock-mode flag set, `Factory.create` returns
a Mock-variant adapter whose display name equals the requested provider
identifier, for every identifier (known or not) and every configuration. -/
theorem create_mock_mode_returns_mock
    (registry : List (String × (Config → Except String Adapter)))
    (provider : String) (config : Config) :
    ∃ a : Adapter,
      (CloudProviderFactory.create registry true provider config).1
          = Except.ok a ∧
      a.kind = AdapterKind.mock ∧ a.provider_name = some provider := by
  refine ⟨_, rfl, rfl, ?_⟩
  show some ((config.set "name" provider).getD "name" "mock") = some provider
  rw [Config.getD, Config.get?_set_self]
  rfl

/-- C9: with the mock-mode flag set, `create` mutates the caller-supplied
configuration dict in place, setting its `name` key to the requested
provider identifier before constructing the Mock adapter; no other key is
modified. -/
theorem create_mock_mode_mutates_config
    (registry : List (String × (Config → Except String Adapter)))
    (provider : String) (config : Config) :
    (CloudProviderFactory.create registry true provider config).2
        = config.set "name" provider ∧
    ((CloudProviderFactory.create registry true provider config).2).get? "name"
        = some provider ∧
    ∀ k : String, k ≠ "name" →
      ((CloudProviderFactory.create registry true provider config).2).get? k
          = config.get? k := by
  refine ⟨rfl, ?_, ?_⟩
  · show (config.set "name" provider).get? "name" = some provider
    exact Config.get?_set_self config "name" provider
  · intro k hk
    show (config.set "name" provider).get? k = config.get? k
    exact Config.get?_set_other config "name" k provider hk

theorem create_mock_mode_mutates_config_witness :
    (CloudProviderFactory.create [] true "aws" [("region", "us")]).2
        = Config.set [("region", "us")] "name" "aws" ∧
    ((CloudProviderFactory.create [] true "aws" [("region", "us")]).2).get? "name"
        = some "aws" ∧
    ((CloudProviderFactory.create [] true "aws" [("region", "us")]).2).get? "region"
        = some "us" := by
  have h := create_mock_mode_mutates_config [] "aws" [("region", "us")]
  refine ⟨h.1, h.2.1, ?_⟩
  rw [h.2.2 "region" (by decide)]
  rfl

/-- C10: for every metricType and minutes, the Mock adapter's
`get_timeseries` returns `min(minutes, 60)` data points when `minutes` is
positive and none when it is not (Python's `range` of a non-positive int is
empty), and in particular never more than 60; both sequences have that
length. -/
theorem mock_timeseries_point_cap (isoTs : ℕ → String) (jitter : ℕ → ℚ)
    (metricType : String) (minutes : ℤ) :
    ∃ t v,
      (MockProvider.get_timeseries isoTs jitter metricType minutes).ts = some t ∧
      (MockProvider.get_timeseries isoTs jitter metricType minutes).values = some v ∧
      t.length = (if 0 < minutes then (min minutes 60).toNat else 0) ∧
      v.length = t.length ∧
      t.length ≤ 60 := by
  obtain ⟨t, v, ht, hv, hlt, hlv⟩ :=
    mock_timeseries_shape isoTs jitter metricType minutes
  refine ⟨t, v, ht, hv, ?_, by rw [hlt, hlv], by rw [hlt]; omega⟩
  rw [hlt]
  by_cases h : 0 < minutes
  · simp [h]
  · simp only [h, if_false]
    omega

/-- C2 counterexample: the claim "for every adapter variant and every
metricType, `getTimeseries` contains equal-length timestamps and values
sequences (both empty in error/unsupported paths)" fails on the AWS
adapter: for a metricType other than `'cpu'` (here `'memory'`, with a
successful CloudWatch call and `minutes = 30`) it returns a bare
not-implemented message dict with no timestamp or value sequence at all. -/
theorem aws_timeseries_missing_seqs :
    ¬ TSResult.hasEqualSeqs
        (AWSProvider.get_timeseries (Except.ok []) "memory" 30) := by
  rintro ⟨t, v, ht, hv, hl⟩
  simp [AWSProvider.get_timeseries, TSResult.hasEqualSeqs] at ht

/-- C2 amended: the Mock and Azure adapters return equal-length timestamp
and value sequences for every metricType and minutes (Azure's always
empty); the AWS adapter does so exactly when metricType is `'cpu'`
(with both sequences empty on a CloudWatch failure), while for any other
metricType it returns a not-implemented marker with no sequences. -/
theorem timeseries_equal_lengths_amended (isoTs : ℕ → String)
    (jitter : ℕ → ℚ) (cw : Except String (List (String × ℚ)))
    (metricType : String) (minutes : ℤ) :
    TSResult.hasEqualSeqs
        (MockProvider.get_timeseries isoTs jitter metricType minutes) ∧
    TSResult.hasEqualSeqs (AzureProvider.get_timeseries metricType minutes) ∧
    (TSResult.hasEqualSeqs (AWSProvider.get_timeseries cw metricType minutes)
        ↔ metricType = "cpu") := by
  refine ⟨?_, ?_, ?_, ?_⟩
  · obtain ⟨t, v, ht, hv, hlt, hlv⟩ :=
      mock_timeseries_shape isoTs jitter metricType minutes
    exact ⟨t, v, ht, hv, by rw [hlt, hlv]⟩
  · unfold AzureProvider.get_timeseries
    by_cases h : metricType == "cpu"
    · rw [if_pos h]
      exact ⟨[], [], rfl, rfl, rfl⟩
    · rw [if_neg h]
      exact ⟨[], [], rfl, rfl, rfl⟩
  · rintro ⟨t, v, ht, hv, hl⟩
    by_contra hne
    have hb : (metricType == "cpu") = false := by
      simpa using hne
    rw [AWSProvider.get_timeseries, if_neg (by simp [hb])] at ht
    exact Option.noConfusion ht
  · rintro rfl
    cases cw with
    | ok datapoints =>
        exact ⟨_, _, rfl, rfl, by
          simp [AWSProvider.get_timeseries, AWSProvider.getCpuTimeseries]⟩
    | error e =>
        exact ⟨[], [], rfl, rfl, rfl⟩

/-- C1: when one provider's per-provider step (adapter construction or the
invoked operation) raises, the list-returning aggregations (anomalies,
recommendations, alerts, budgets) silently omit that provider — their
result equals the result computed from the successful providers alone —
while the keyed aggregations keep one entry per active provider: the cost
summary maps each provider to an active entry or an
`{provider, error, status:'error'}` entry, and forecast-all /
services-breakdown-all store each provider's result or `{'error': msg}`
under its key; in all cases the remaining providers are still processed. -/
theorem aggregation_partial_failure
    (rsA : Fetches (List Anomaly)) (rsR : Fetches (List Recommendation))
    (rsL : Fetches (List Alert)) (rsB : Fetches (List Budget))
    (rsS : Fetches ℚ) (rsF : Fetches Forecast) (rsD : Fetches Breakdown) :
    all_anomalies rsA = all_anomalies (rsA.filter (fun pr => pr.2.isOk)) ∧
    all_recommendations rsR
        = all_recommendations (rsR.filter (fun pr => pr.2.isOk)) ∧
    all_alerts rsL = all_alerts (rsL.filter (fun pr => pr.2.isOk)) ∧
    all_budgets rsB = all_budgets (rsB.filter (fun pr => pr.2.isOk)) ∧
    (unified_costs_summary rsS).map (fun en => en.provider)
        = rsS.map (fun pr => pr.1) ∧
    (∀ p e, (p, Except.error e) ∈ rsS →
      ({ provider := p, error := some e, status := "error" } : SummaryEntry)
          ∈ unified_costs_summary rsS) ∧
    (∀ p m, (p, Except.ok m) ∈ rsS →
      ({ provider := p, mtd_cost := some m, status := "active" } : SummaryEntry)
          ∈ unified_costs_summary rsS) ∧
    (all_forecasts rsF).providers = rsF ∧
    (all_services_breakdown rsD).providers = rsD := by
  refine ⟨?_, ?_, ?_, ?_, ?_, ?_, ?_, ?_, ?_⟩
  · unfold all_anomalies
    rw [skipFold_filter_isOk]
  · unfold all_recommendations
    rw [skipFold_filter_isOk]
  · unfold all_alerts
    rw [skipFold_filter_isOk]
  · unfold all_budgets
    rw [skipFold_filter_isOk]
  · induction rsS with
    | nil => rfl
    | cons h t ih =>
        obtain ⟨p, r⟩ := h
        cases r with
        | ok m => simpa [unified_costs_summary] using ih
        | error e => simpa [unified_costs_summary] using ih
  · intro p e hp
    exact List.mem_map_of_mem _ hp
  · intro p m hp
    exact List.mem_map_of_mem _ hp
  · exact (keyedFold_providers _ _ rsF ([], 0, 0)).trans (List.nil_append rsF)
  · exact (keyedFold_providers _ _ rsD ([], 0, 0)).trans (List.nil_append rsD)

theorem aggregation_partial_failure_witness :
    ({ provider := "azure", error := some "boom", status := "error" }
        : SummaryEntry)
      ∈ unified_costs_summary
          [("aws", Except.ok 5), ("azure", Except.error "boom")] ∧
    ({ provider := "aws", mtd_cost := some 5, status := "active" }
        : SummaryEntry)
      ∈ unified_costs_summary
          [("aws", Except.ok 5), ("azure", Except.error "boom")] ∧
    all_anomalies [("aws", Except.error "down")]
      = all_anomalies
          (([("aws", Except.error "down")] : Fetches (List Anomaly)).filter
            (fun pr => pr.2.isOk)) := by
  have h := aggregation_partial_failure [("aws", Except.error "down")] [] [] []
    [("aws", Except.ok 5), ("azure", Except.error "boom")] [] []
  exact ⟨h.2.2.2.2.2.1 "azure" "boom" (by decide),
    h.2.2.2.2.2.2.1 "aws" 5 (by decide), h.1⟩

/-- C6: the budgets aggregation concatenates the (provider-tagged) budget
lists; accumulates `total_budget`/`total_spent` only over items with
`type == 'overall'`; computes `total_remaining` as their difference and
`overall_utilization` as `total_spent/total_budget*100` rounded to one
decimal when `total_budget` is positive and `0` otherwise (never a division
error); and counts `at_risk_count` over all items with
`status == 'at_risk'` regardless of type. -/
theorem all_budgets_spec (rs : Fetches (List Budget)) :
    (all_budgets rs).budgets = taggedBudgets rs ∧
    (all_budgets rs).total_budget
        = pyRound (overallAmountSum (rawBudgets rs)) 2 ∧
    (all_budgets rs).total_spent
        = pyRound (overallSpentSum (rawBudgets rs)) 2 ∧
    (all_budgets rs).total_remaining
        = pyRound (overallAmountSum (rawBudgets rs)
            - overallSpentSum (rawBudgets rs)) 2 ∧
    (all_budgets rs).overall_utilization
        = (if 0 < overallAmountSum (rawBudgets rs)
           then pyRound (overallSpentSum (rawBudgets rs)
              / overallAmountSum (rawBudgets rs) * 100) 1
           else 0) ∧
    (all_budgets rs).at_risk_count
        = ((rawBudgets rs).filter (fun b => b.status == some "at_risk")).length
    := by
  unfold all_budgets
  rw [budgets_fold_spec rs ([], 0, 0)]
  simp only [List.nil_append, zero_add]
  refine ⟨by trivial, by trivial, by trivial, by trivial, by trivial, ?_⟩
  have hc := tagged_budgets_countP rs
    (fun b => b.status == some "at_risk") (fun b p => rfl)
  simpa [List.countP_eq_length_filter] using hc

/-- C7: the recommendations aggregation returns the provider-tagged
concatenation sorted descending by `potential_savings_monthly` (missing
field → 0); `total_potential_savings_monthly` is the (rounded) sum of that
field over all items, `total_potential_savings_yearly` that sum times 12
(rounded), and `recommendation_count` the number of items. -/
theorem all_recommendations_spec (rs : Fetches (List Recommendation)) :
    (all_recommendations rs).recommendations.Perm (taggedRecs rs) ∧
    List.Pairwise (fun a b => recSavings b ≤ recSavings a)
        (all_recommendations rs).recommendations ∧
    (all_recommendations rs).total_potential_savings_monthly
        = pyRound (((taggedRecs rs).map recSavings).sum) 2 ∧
    (all_recommendations rs).total_potential_savings_yearly
        = pyRound (((taggedRecs rs).map recSavings).sum * 12) 2 ∧
    (all_recommendations rs).recommendation_count = (taggedRecs rs).length
    := by
  unfold all_recommendations
  rw [recs_fold_spec rs ([], 0)]
  simp only [List.nil_append, zero_add]
  refine ⟨List.mergeSort_perm _ _, ?_, ?_, ?_, ?_⟩
  · have hs := @List.sorted_mergeSort _
      (fun a b : Recommendation => decide (recSavings b ≤ recSavings a))
      (fun a b c h1 h2 => by
        simp only [decide_eq_true_eq] at h1 h2 ⊢
        exact le_trans h2 h1)
      (fun a b => by
        simp only [Bool.or_eq_true, decide_eq_true_eq]
        exact le_total (recSavings b) (recSavings a))
      (taggedRecs rs)
    exact hs.imp (fun h => of_decide_eq_true h)
  · rw [tagged_recs_savings]
  · rw [tagged_recs_savings]
  · exact (List.mergeSort_perm _ _).length_eq

/-- C8: with the mock-mode flag unset, `create` looks the identifier up
case-insensitively in the registry
{gcp, aws, azure, mock, mock_gcp, mock_aws, mock_azure} and invokes the
corresponding adapter constructor; a dynamically registered name resolves
to its registered constructor; any identifier not in the registry fails
with an "Unsupported provider" error instead of returning an adapter. -/
theorem create_registry_behavior (g a z : Bool) (config : Config) :
    (∀ provider : String, pyLower provider = "gcp" →
      (CloudProviderFactory.create (defaultProviders g a z) false provider
        config).1 = GCPProvider.init g config) ∧
    (∀ provider : String, pyLower provider = "aws" →
      (CloudProviderFactory.create (defaultProviders g a z) false provider
        config).1 = AWSProvider.init a config) ∧
    (∀ provider : String, pyLower provider = "azure" →
      (CloudProviderFactory.create (defaultProviders g a z) false provider
        config).1 = AzureProvider.init z config) ∧
    (∀ provider : String,
      (pyLower provider = "mock" ∨ pyLower provider = "mock_gcp" ∨
       pyLower provider = "mock_aws" ∨ pyLower provider = "mock_azure") →
      (CloudProviderFactory.create (defaultProviders g a z) false provider
        config).1 = MockProvider.init config) ∧
    (∀ provider : String,
      pyLower provider ∉
        (["gcp", "aws", "azure", "mock", "mock_gcp", "mock_aws", "mock_azure"]
          : List String) →
      (CloudProviderFactory.create (defaultProviders g a z) false provider
        config).1 = Except.error ("Unsupported provider: " ++ provider)) ∧
    (∀ (name : String) (ctor : Config → Except String Adapter)
        (provider : String),
      pyLower provider = pyLower name →
      pyLower name ∉
        (["gcp", "aws", "azure", "mock", "mock_gcp", "mock_aws", "mock_azure"]
          : List String) →
      (CloudProviderFactory.create
          (CloudProviderFactory.register_provider (defaultProviders g a z)
            name ctor)
          false provider config).1 = ctor config) := by
  refine ⟨?_, ?_, ?_, ?_, ?_, ?_⟩
  · intro provider h
    unfold CloudProviderFactory.create
    rw [h]
    simp [defaultProviders, List.find?]
  · intro provider h
    unfold CloudProviderFactory.create
    rw [h]
    simp [defaultProviders, List.find?]
  · intro provider h
    unfold CloudProviderFactory.create
    rw [h]
    simp [defaultProviders, List.find?]
  · intro provider h
    unfold CloudProviderFactory.create
    rcases h with h | h | h | h <;>
      (rw [h]; simp [defaultProviders, List.find?])
  · intro provider h
    unfold CloudProviderFactory.create
    simp only [List.mem_cons, not_or] at h
    obtain ⟨h1, h2, h3, h4, h5, h6, h7, -⟩ := h
    simp [defaultProviders, List.find?,
      beq_eq_false_iff_ne.mpr (Ne.symm h1), beq_eq_false_iff_ne.mpr (Ne.symm h2),
      beq_eq_false_iff_ne.mpr (Ne.symm h3), beq_eq_false_iff_ne.mpr (Ne.symm h4),
      beq_eq_false_iff_ne.mpr (Ne.symm h5), beq_eq_false_iff_ne.mpr (Ne.symm h6),
      beq_eq_false_iff_ne.mpr (Ne.symm h7)]
  · intro name ctor provider hpn h
    unfold CloudProviderFactory.create CloudProviderFactory.register_provider
    rw [hpn]
    simp only [List.mem_cons, not_or] at h
    obtain ⟨h1, h2, h3, h4, h5, h6, h7, -⟩ := h
    simp [defaultProviders, List.find?,
      beq_eq_false_iff_ne.mpr (Ne.symm h1), beq_eq_false_iff_ne.mpr (Ne.symm h2),
      beq_eq_false_iff_ne.mpr (Ne.symm h3), beq_eq_false_iff_ne.mpr (Ne.symm h4),
      beq_eq_false_iff_ne.mpr (Ne.symm h5), beq_eq_false_iff_ne.mpr (Ne.symm h6),
      beq_eq_false_iff_ne.mpr (Ne.symm h7)]

theorem create_registry_behavior_witness :
    (CloudProviderFactory.create (defaultProviders true true true) false "GCP"
      []).1 = GCPProvider.init true [] ∧
    (CloudProviderFactory.create (defaultProviders true true true) false
      "MoCk_AzUrE" []).1 = MockProvider.init [] ∧
    (CloudProviderFactory.create (defaultProviders true true true) false "doge"
      []).1 = Except.error "Unsupported provider: doge" ∧
    (CloudProviderFactory.create
        (CloudProviderFactory.register_provider (defaultProviders true true true)
          "Custom" MockProvider.init)
        false "cUsToM" []).1 = MockProvider.init [] := by
  have h := create_registry_behavior true true true []
  refine ⟨h.1 "GCP" (by decide),
    h.2.2.2.1 "MoCk_AzUrE" (Or.inr (Or.inr (Or.inr (by decide)))), ?_,
    h.2.2.2.2.2 "Custom" MockProvider.init "cUsToM" (by decide) (by decide)⟩
  rw [h.2.2.2.2.1 "doge" (by decide)]
  rfl

/-- C5: the claim (and `base_provider.py`'s own comment "MockProvider
overrides all of these with full implementations") says the Mock adapter
implements all six extension operations with non-trivial data; in the code
`MockProvider` overrides none of them, so they resolve to the base-class
defaults: empty lists for anomalies/recommendations/alerts/budgets and the
zeroed forecast structure (only `current_mtd` is derived from
`get_mtd_costs`). -/
theorem mock_extension_ops_are_defaults
    (m : Except String (List CostItem)) (d : ℤ) :
    MockProvider.get_anomalies = ([] : List Anomaly) ∧
    MockProvider.get_recommendations = ([] : List Recommendation) ∧
    MockProvider.get_alerts = ([] : List Alert) ∧
    MockProvider.get_budgets = ([] : List Budget) ∧
    (MockProvider.get_forecast m d).forecast_data = [] ∧
    (MockProvider.get_forecast m d).projected_eom = some 0 ∧
    (MockProvider.get_forecast m d).daily_average = some 0 ∧
    (MockProvider.get_forecast m d).confidence = some 0 :=
  ⟨rfl, rfl, rfl, rfl, rfl, rfl, rfl, rfl⟩

end CloudDash
